import Mathlib

/-!
Formal model of the zthread.h threading library (z-libs/zthread.h),
shallowly embedded from `src/src/zthread.c` and `src/zthread.h`.

The embedding models:
* the POSIX backend of the C layer (`zthread__create_ptr`,
  `zthread__proxy_entry`, `zthread_sleep`) as functions over explicit
  success/failure flags, producing traces of allocation / invocation /
  native-call events;
* the C++ RAII layer (`z_thread::thread`, `z_thread::lock_guard`) as
  state-transition functions on explicit record states, with
  `std::terminate` modelled as `Option.none`;
* machine `int` arithmetic in the sleep path as natural-number
  arithmetic reduced modulo `2^32` where the C computation can wrap.
-/

namespace ZThread

/-- Result codes of the C layer: `Z_OK`, `Z_ENOMEM`, `Z_ERR`. -/
inductive ZRes where
  | ok
  | enomem
  | err
deriving DecidableEq, Repr

/-- Observable heap / invocation / native-call events emitted by the spawn
machinery.  `allocEnvelope`/`freeEnvelope` are the C++ `new impl_type` /
`delete p` pair; `allocWrap`/`freeWrap` are the `ZTHREAD_MALLOC` /
`ZTHREAD_FREE` pair on `struct zthread__wrap`; `invokeCallable` is the single
`p->run()` call; the `native*` events are the underlying pthread calls. -/
inductive Event where
  | allocEnvelope
  | freeEnvelope
  | invokeCallable
  | allocWrap
  | freeWrap
  | nativeCreate
  | nativeJoin (id : Nat)
  | nativeDetach (id : Nat)
deriving DecidableEq, Repr

/-- Number of occurrences of an event in a trace. -/
def countEvent (tr : List Event) (e : Event) : Nat :=
  match tr with
  | [] => 0
  | x :: xs => (if x = e then 1 else 0) + countEvent xs e

/-- State of a `z_thread::thread` object: the native identifier `inner`
(`pthread_t`, modelled as `Nat`, `0` being the null identifier the
constructors write) and the `joinable` flag. -/
structure ThreadObj where
  inner : Nat
  joinable : Bool
deriving DecidableEq, Repr

/-- Embeds `zthread__create_ptr` (POSIX branch, zthread.c lines 482-498).
`mallocOk` is whether `ZTHREAD_MALLOC` returns non-null, `pthreadOk` whether
`pthread_create` returns 0.  Returns the result code and the trace of wrap
allocation events: on malloc failure nothing was allocated; on
`pthread_create` failure the wrap record is freed before returning `Z_ERR`;
on success the wrap is handed to the started native thread. -/
def zthread__create_ptr (mallocOk pthreadOk : Bool) : ZRes × List Event :=
  if mallocOk = false then
    (ZRes.enomem, [])
  else if pthreadOk = false then
    (ZRes.err, [Event.allocWrap, Event.freeWrap])
  else
    (ZRes.ok, [Event.allocWrap, Event.nativeCreate])

/-- Embeds `z_thread::thread::proxy_thunk` (zthread.c lines 271-276):
`p->run(); delete p;`.  `callFails` records whether the wrapped callable
raises an uncaught failure during its invocation.  If it does, control never
reaches `delete p`: the failure escapes the thunk and (escaping a native
thread entry) terminates the process, flagged by the returned `true`. -/
def proxy_thunk (callFails : Bool) : List Event × Bool :=
  if callFails then
    ([Event.invokeCallable], true)
  else
    ([Event.invokeCallable, Event.freeEnvelope], false)

/-- Embeds `zthread__proxy_entry` (POSIX branch, zthread.c lines 474-480):
`w->f(w->arg); ZTHREAD_FREE(w);` where `w->f` is `proxy_thunk` and `w->arg`
the envelope.  The wrap record is freed only if the inner call returns
normally; a failure propagating out of `w->f` skips the free and terminates
the process. -/
def zthread__proxy_entry (callFails : Bool) : List Event × Bool :=
  match proxy_thunk callFails with
  | (evs, true) => (evs, true)
  | (evs, false) => (evs ++ [Event.freeWrap], false)

/-- Result of running the spawning constructor
`z_thread::thread::thread(Function&&, Args&&...)`. -/
structure CtorResult where
  handle : ThreadObj
  res : ZRes
  events : List Event
deriving DecidableEq, Repr

/-- Embeds the spawning constructor (zthread.c lines 313-329): allocate the
envelope (`new impl_type`), call `zthread__create_ptr`; on `Z_OK` set
`joinable = true` (with `inner` written by `pthread_create`, modelled by
`newId`); otherwise `delete p` and set `joinable = false` (`inner` is left
unwritten, modelled by the indeterminate `g`). -/
def thread_ctor (mallocOk pthreadOk : Bool) (newId g : Nat) : CtorResult :=
  match zthread__create_ptr mallocOk pthreadOk with
  | (ZRes.ok, evs) =>
      { handle := { inner := newId, joinable := true }
        res := ZRes.ok
        events := Event.allocEnvelope :: evs }
  | (r, evs) =>
      { handle := { inner := g, joinable := false }
        res := r
        events := Event.allocEnvelope :: (evs ++ [Event.freeEnvelope]) }

/-- Embeds the default constructor `thread()` (zthread.c lines 279-286):
`joinable = false`, `inner = 0`. -/
def thread_default : ThreadObj :=
  { inner := 0, joinable := false }

/-- Embeds `z_thread::thread::join` (zthread.c lines 339-346): if `joinable`,
call `zthread_join(inner)` (which blocks until the native thread terminates)
and clear the flag; otherwise do nothing.  Returns the new state and the
native calls performed. -/
def thread_join (t : ThreadObj) : ThreadObj × List Event :=
  if t.joinable then
    ({ inner := t.inner, joinable := false }, [Event.nativeJoin t.inner])
  else
    (t, [])

/-- Embeds `z_thread::thread::detach` (zthread.c lines 348-355): if
`joinable`, call `zthread_detach(inner)` and clear the flag; otherwise do
nothing. -/
def thread_detach (t : ThreadObj) : ThreadObj × List Event :=
  if t.joinable then
    ({ inner := t.inner, joinable := false }, [Event.nativeDetach t.inner])
  else
    (t, [])

/-- Embeds the destructor `~thread()` (zthread.c lines 331-337):
`if (joinable) std::terminate();`.  `none` models `std::terminate`,
`some ()` a normal return. -/
def thread_dtor (t : ThreadObj) : Option Unit :=
  if t.joinable then none else some ()

/-- Embeds the move constructor `thread(thread&&)` (zthread.c lines
289-297): the destination copies `inner` and `joinable` from the source,
then the source gets `joinable = false` and `inner = 0`.  Returns
(destination, source-after-move). -/
def thread_move_ctor (src : ThreadObj) : ThreadObj × ThreadObj :=
  ({ inner := src.inner, joinable := src.joinable },
   { inner := 0, joinable := false })

/-- Embeds move assignment `operator=(thread&&)` (zthread.c lines 299-309):
if the target is still joinable, `std::terminate()` fires before any
transfer (modelled as `none`); otherwise the target takes the source's
`inner` and `joinable`, and only the source's `joinable` flag is cleared —
the source's `inner` is left unchanged.  Returns
(target-after, source-after). -/
def thread_move_assign (dst src : ThreadObj) : Option (ThreadObj × ThreadObj) :=
  if dst.joinable then
    none
  else
    some ({ inner := src.inner, joinable := src.joinable },
          { inner := src.inner, joinable := false })

/-- Full event trace of one spawn, following the control flow of the spec's
§2 paths: the spawning constructor runs; if it reported `Z_OK` the started
native thread eventually runs `zthread__proxy_entry` on the envelope (with a
normally-returning callable); otherwise nothing else runs. -/
def spawn_path_events (mallocOk pthreadOk : Bool) (newId g : Nat) : List Event :=
  let r := thread_ctor mallocOk pthreadOk newId g
  if r.res = ZRes.ok then r.events ++ (zthread__proxy_entry false).1 else r.events

/-- Lock / unlock events on mutexes, identified by a `Nat` identity (the
address of the `z_thread::mutex` object a `lock_guard` can refer to). -/
inductive MutexEvent where
  | lock (m : Nat)
  | unlock (m : Nat)
deriving DecidableEq, Repr

/-- State of a `z_thread::lock_guard`: the non-owning reference `m_mutex`
to the guarded mutex (its identity). -/
structure LockGuardObj where
  m_mutex : Nat
deriving DecidableEq, Repr

/-- Embeds the `lock_guard` constructor (zthread.c lines 195-198): store the
mutex reference and call `m_mutex.lock()` exactly once. -/
def lock_guard_ctor (m : Nat) : LockGuardObj × List MutexEvent :=
  ({ m_mutex := m }, [MutexEvent.lock m])

/-- Embeds the `lock_guard` destructor (zthread.c lines 200-203): call
`m_mutex.unlock()` exactly once on the stored mutex. -/
def lock_guard_dtor (g : LockGuardObj) : List MutexEvent :=
  [MutexEvent.unlock g.m_mutex]

/-- Trace of mutex events across one full `lock_guard` lifetime guarding
mutex `m`: constructor events, then whatever mutex events `body` the
enclosing scope performs, then (on every exit path of the scope, by C++
destructor semantics) the destructor events. -/
def lock_guard_scope (m : Nat) (body : List MutexEvent) : List MutexEvent :=
  (lock_guard_ctor m).2 ++ body ++ lock_guard_dtor (lock_guard_ctor m).1

/-- Held/not-held state of mutex `m` after one mutex event. -/
def stepHeld (m : Nat) (held : Bool) : MutexEvent → Bool
  | MutexEvent.lock m' => if m' = m then true else held
  | MutexEvent.unlock m' => if m' = m then false else held

/-- Held/not-held state of mutex `m` after a trace of mutex events. -/
def runHeld (m : Nat) (held : Bool) (evs : List MutexEvent) : Bool :=
  evs.foldl (stepHeld m) held

/-- Embeds the POSIX `.c` backend of `zthread_sleep` (zthread.c lines
510-513): `usleep(ms * 1000)`.  The multiplication is carried out in 32-bit
machine arithmetic and the result passed as the (32-bit unsigned)
microsecond count, so the value the OS receives is `ms * 1000` reduced
modulo `2^32`. -/
def zthread_sleep_c_micros (ms : Nat) : Nat :=
  (ms * 1000) % (2 ^ 32)

/-- A `struct timespec` request: seconds and nanoseconds. -/
structure Timespec where
  tv_sec : Nat
  tv_nsec : Nat
deriving DecidableEq, Repr

/-- Embeds the header backend of `zthread_sleep` (zthread.h lines 663-669):
`ts.tv_sec = ms / 1000; ts.tv_nsec = (ms % 1000) * 1000000;` passed to
`nanosleep`. -/
def zthread_sleep_h_ts (ms : Nat) : Timespec :=
  { tv_sec := ms / 1000, tv_nsec := (ms % 1000) * 1000000 }

/-- Total nanoseconds requested by a timespec. -/
def timespecNanos (ts : Timespec) : Nat :=
  ts.tv_sec * 1000000000 + ts.tv_nsec

/-- A `z_thread::thread` object state together with the ghost fact the
spec's invariant speaks about: `live` is true exactly when a native thread
was successfully started for this object and has not yet been joined,
detached, or moved out of it. -/
structure TState where
  obj : ThreadObj
  live : Bool
deriving DecidableEq, Repr

/-- States of a `z_thread::thread` object reachable by its public
operations, paired with the ghost `live` fact.  Constructors follow the
source: default construction, spawning construction (success writes the
native id and starts a live thread; failure leaves `inner` indeterminate
and no thread started), move construction (destination inherits the
source's thread, source loses it), move assignment on a non-joinable
target (same transfer, via `thread_move_assign`), join and detach (after
either, the object no longer owns a live unretired thread). -/
inductive Reach : TState → Prop where
  | default_ctor : Reach { obj := thread_default, live := false }
  | spawn_ok (newId : Nat) :
      Reach { obj := { inner := newId, joinable := true }, live := true }
  | spawn_fail (g : Nat) :
      Reach { obj := { inner := g, joinable := false }, live := false }
  | move_ctor_dst (s : TState) :
      Reach s → Reach { obj := (thread_move_ctor s.obj).1, live := s.live }
  | move_ctor_src (s : TState) :
      Reach s → Reach { obj := (thread_move_ctor s.obj).2, live := false }
  | move_assign_dst (d s : TState) (r : ThreadObj × ThreadObj) :
      Reach d → Reach s → thread_move_assign d.obj s.obj = some r →
      Reach { obj := r.1, live := s.live }
  | move_assign_src (d s : TState) (r : ThreadObj × ThreadObj) :
      Reach d → Reach s → thread_move_assign d.obj s.obj = some r →
      Reach { obj := r.2, live := false }
  | join_step (s : TState) :
      Reach s → Reach { obj := (thread_join s.obj).1, live := false }
  | detach_step (s : TState) :
      Reach s → Reach { obj := (thread_detach s.obj).1, live := false }

/-- Number of occurrences of a mutex event in a trace. -/
def countMutexEvent (tr : List MutexEvent) (e : MutexEvent) : Nat :=
  match tr with
  | [] => 0
  | x :: xs => (if x = e then 1 else 0) + countMutexEvent xs e

theorem countMutexEvent_append (a b : List MutexEvent) (e : MutexEvent) :
    countMutexEvent (a ++ b) e = countMutexEvent a e + countMutexEvent b e := by
  induction a with
  | nil => simp [countMutexEvent]
  | cons x xs ih => simp [countMutexEvent, ih]; omega

theorem countMutexEvent_eq_zero (body : List MutexEvent) (e : MutexEvent)
    (h : ∀ x ∈ body, x ≠ e) : countMutexEvent body e = 0 := by
  induction body with
  | nil => rfl
  | cons x xs ih =>
      have hx : x ≠ e := h x (by simp)
      simp [countMutexEvent, hx]
      exact ih (fun y hy => h y (by simp [hy]))

theorem stepHeld_untouched (m : Nat) (held : Bool) (e : MutexEvent)
    (h1 : e ≠ MutexEvent.lock m) (h2 : e ≠ MutexEvent.unlock m) :
    stepHeld m held e = held := by
  cases e with
  | lock m' =>
      have : m' ≠ m := by intro hm; exact h1 (by rw [hm])
      simp [stepHeld, this]
  | unlock m' =>
      have : m' ≠ m := by intro hm; exact h2 (by rw [hm])
      simp [stepHeld, this]

theorem runHeld_untouched (m : Nat) (evs : List MutexEvent)
    (h : ∀ e ∈ evs, e ≠ MutexEvent.lock m ∧ e ≠ MutexEvent.unlock m) :
    ∀ held, runHeld m held evs = held := by
  induction evs with
  | nil => intro held; rfl
  | cons x xs ih =>
      intro held
      have hx := h x (by simp)
      have hstep : stepHeld m held x = held := stepHeld_untouched m held x hx.1 hx.2
      have : runHeld m held (x :: xs) = runHeld m (stepHeld m held x) xs := rfl
      rw [this, hstep]
      exact ih (fun y hy => h y (by simp [hy])) held

theorem runHeld_append (m : Nat) (held : Bool) (a b : List MutexEvent) :
    runHeld m held (a ++ b) = runHeld m (runHeld m held a) b := by
  unfold runHeld
  exact List.foldl_append (stepHeld m) held a b

/-- Claim C1: for every call to the spawning constructor, if native thread
creation succeeds the returned handle has `joinable = true` (and
`zthread__create_ptr` reported `Z_OK`); if it fails — wrap-record allocation
failure or OS refusal — the reported code is not `Z_OK`, the handle's
`joinable` is `false`, and every heap allocation made for the spawn (the
`zthread__wrap` record and the bound-callable envelope) has already been
deallocated before control returns: the free counts in the constructor's
event trace equal the allocation counts. -/
theorem claim_C1_spawn_success_and_failure_cleanup
    (mallocOk pthreadOk : Bool) (newId g : Nat) :
    (mallocOk = true ∧ pthreadOk = true →
      (thread_ctor mallocOk pthreadOk newId g).handle.joinable = true ∧
      (thread_ctor mallocOk pthreadOk newId g).res = ZRes.ok) ∧
    (mallocOk = false ∨ pthreadOk = false →
      (thread_ctor mallocOk pthreadOk newId g).res ≠ ZRes.ok ∧
      (thread_ctor mallocOk pthreadOk newId g).handle.joinable = false ∧
      countEvent (thread_ctor mallocOk pthreadOk newId g).events Event.freeEnvelope
        = countEvent (thread_ctor mallocOk pthreadOk newId g).events Event.allocEnvelope ∧
      countEvent (thread_ctor mallocOk pthreadOk newId g).events Event.freeWrap
        = countEvent (thread_ctor mallocOk pthreadOk newId g).events Event.allocWrap) := by
  cases mallocOk <;> cases pthreadOk <;>
    simp [thread_ctor, zthread__create_ptr, countEvent]

/-- Witness for claim C1 at concrete inputs: a successful spawn yields a
joinable handle, and a spawn whose wrap allocation fails reports a non-`Z_OK`
code with `joinable = false`. -/
theorem claim_C1_spawn_success_and_failure_cleanup_witness :
    (thread_ctor true true 5 0).handle.joinable = true ∧
    (thread_ctor false true 5 0).res ≠ ZRes.ok ∧
    (thread_ctor false true 5 0).handle.joinable = false :=
  ⟨((claim_C1_spawn_success_and_failure_cleanup true true 5 0).1 ⟨rfl, rfl⟩).1,
   ((claim_C1_spawn_success_and_failure_cleanup false true 5 0).2 (Or.inl rfl)).1,
   ((claim_C1_spawn_success_and_failure_cleanup false true 5 0).2 (Or.inl rfl)).2.1⟩

/-- Claim C2: the proxy entry invokes the wrapped callable exactly once and
then deallocates the envelope exactly once (its trace is precisely
invoke-then-free-envelope-then-free-wrap); the success-path constructor
trace contains no envelope deallocation, so the proxy is the only
deallocation point on the success path; and on every spawn path (success,
allocation failure, OS refusal) the envelope is freed exactly once — never
zero times, never twice. -/
theorem claim_C2_proxy_single_dealloc (mallocOk pthreadOk : Bool) (newId g : Nat) :
    zthread__proxy_entry false
      = ([Event.invokeCallable, Event.freeEnvelope, Event.freeWrap], false) ∧
    countEvent (zthread__proxy_entry false).1 Event.invokeCallable = 1 ∧
    countEvent (zthread__proxy_entry false).1 Event.freeEnvelope = 1 ∧
    countEvent (zthread__proxy_entry false).1 Event.freeWrap = 1 ∧
    countEvent (thread_ctor true true newId g).events Event.freeEnvelope = 0 ∧
    countEvent (spawn_path_events mallocOk pthreadOk newId g) Event.freeEnvelope = 1 := by
  cases mallocOk <;> cases pthreadOk <;>
    simp [spawn_path_events, thread_ctor, zthread__create_ptr,
      zthread__proxy_entry, proxy_thunk, countEvent]

/-- Claim C4 counterexample: move assignment does not reset the source's
native identifier.  Move-assigning from a handle whose native identifier is
`42` leaves the source with `inner = 42`, not the null identifier `0` the
claim requires. -/
theorem claim_C4_counterexample :
    thread_move_assign { inner := 0, joinable := false } { inner := 42, joinable := true }
      = some ({ inner := 42, joinable := true }, { inner := 42, joinable := false }) ∧
    (42 : Nat) ≠ 0 := by
  exact ⟨rfl, by decide⟩

/-- Claim C4 as amended: move construction transfers the native identifier
and the `joinable` flag and resets the source to not joinable with a null
identifier; move assignment (on a non-joinable target) transfers the native
identifier and the `joinable` flag and clears only the source's `joinable`
flag, leaving the source's native identifier unchanged — so after either
move the source is not joinable. -/
theorem claim_C4_move_transfer (dst src : ThreadObj) :
    (thread_move_ctor src).1 = { inner := src.inner, joinable := src.joinable } ∧
    (thread_move_ctor src).2 = { inner := 0, joinable := false } ∧
    (dst.joinable = false →
      thread_move_assign dst src
        = some ({ inner := src.inner, joinable := src.joinable },
                { inner := src.inner, joinable := false })) := by
  refine ⟨rfl, rfl, ?_⟩
  intro h
  simp [thread_move_assign, h]

/-- Witness for claim C4's amended statement at concrete inputs. -/
theorem claim_C4_move_transfer_witness :
    thread_move_assign { inner := 0, joinable := false } { inner := 7, joinable := true }
      = some ({ inner := 7, joinable := true }, { inner := 7, joinable := false }) :=
  (claim_C4_move_transfer { inner := 0, joinable := false }
    { inner := 7, joinable := true }).2.2 rfl

/-- Claim C5: `join` on a joinable handle performs the native join call on
the stored identifier (which blocks until the native thread terminates) and
sets `joinable` to `false`; `join` and `detach` on a non-joinable handle
(moved-from or default-constructed included) perform no native call and
leave the state unchanged; hence a second `join`/`detach` after any
`join`/`detach` is a no-op — the operations are idempotent. -/
theorem claim_C5_join_detach_idempotent (t : ThreadObj) :
    (t.joinable = true →
      thread_join t = ({ inner := t.inner, joinable := false }, [Event.nativeJoin t.inner]) ∧
      thread_detach t
        = ({ inner := t.inner, joinable := false }, [Event.nativeDetach t.inner])) ∧
    (t.joinable = false →
      thread_join t = (t, []) ∧ thread_detach t = (t, [])) ∧
    thread_join (thread_join t).1 = ((thread_join t).1, []) ∧
    thread_detach (thread_detach t).1 = ((thread_detach t).1, []) ∧
    thread_detach (thread_join t).1 = ((thread_join t).1, []) ∧
    thread_join (thread_detach t).1 = ((thread_detach t).1, []) := by
  rcases t with ⟨i, j⟩
  cases j <;> simp [thread_join, thread_detach]

/-- Witness for claim C5 at concrete inputs: joining a joinable handle with
identifier 3 performs the native join and clears the flag; joining a
non-joinable handle changes nothing and performs no native call. -/
theorem claim_C5_join_detach_idempotent_witness :
    thread_join { inner := 3, joinable := true }
      = ({ inner := 3, joinable := false }, [Event.nativeJoin 3]) ∧
    thread_join { inner := 3, joinable := false }
      = ({ inner := 3, joinable := false }, []) :=
  ⟨((claim_C5_join_detach_idempotent { inner := 3, joinable := true }).1 rfl).1,
   ((claim_C5_join_detach_idempotent { inner := 3, joinable := false }).2.1 rfl).1⟩

/-- Claim C6: destroying a handle whose `joinable` flag is `true` is fatal
(`std::terminate`, modelled by `none`); destroying a handle with `joinable`
`false` returns normally.  In particular the destructor returns normally on
a default-constructed handle and after any `join` or `detach`. -/
theorem claim_C6_dtor_fatal_iff_joinable (t : ThreadObj) :
    (t.joinable = true → thread_dtor t = none) ∧
    (t.joinable = false → thread_dtor t = some ()) ∧
    thread_dtor (thread_join t).1 = some () ∧
    thread_dtor (thread_detach t).1 = some () ∧
    thread_dtor thread_default = some () := by
  rcases t with ⟨i, j⟩
  cases j <;> simp [thread_dtor, thread_join, thread_detach, thread_default]

/-- Witness for claim C6 at concrete inputs: destroying a still-joinable
handle terminates; destroying a non-joinable one returns normally. -/
theorem claim_C6_dtor_fatal_iff_joinable_witness :
    thread_dtor { inner := 3, joinable := true } = none ∧
    thread_dtor { inner := 3, joinable := false } = some () :=
  ⟨(claim_C6_dtor_fatal_iff_joinable { inner := 3, joinable := true }).1 rfl,
   (claim_C6_dtor_fatal_iff_joinable { inner := 3, joinable := false }).2.1 rfl⟩

/-- Claim C10: move-assigning onto a `z_thread::thread` whose own
`joinable` flag is `true` is fatal (`std::terminate`, modelled by `none`)
before any transfer of the source's state occurs — the assignment produces
no resulting states. -/
theorem claim_C10_move_assign_fatal_on_joinable_target (dst src : ThreadObj)
    (h : dst.joinable = true) :
    thread_move_assign dst src = none := by
  simp [thread_move_assign, h]

/-- Witness for claim C10 at concrete inputs: assigning over a joinable
handle terminates. -/
theorem claim_C10_move_assign_fatal_on_joinable_target_witness :
    thread_move_assign { inner := 1, joinable := true } { inner := 2, joinable := true }
      = none :=
  claim_C10_move_assign_fatal_on_joinable_target
    { inner := 1, joinable := true } { inner := 2, joinable := true } rfl

/-- Claim C8 counterexample: the POSIX `.c` backend computes
`usleep(ms * 1000)` in 32-bit machine arithmetic, so for the non-negative
`int` value `ms = 4294968` the requested suspension is
`4294968000 mod 2^32 = 704` microseconds — not `ms * 1000` microseconds,
and far shorter than `ms` milliseconds. -/
theorem claim_C8_counterexample :
    zthread_sleep_c_micros 4294968 = 704 ∧ 704 < 4294968 * 1000 := by
  constructor
  · show (4294968 * 1000) % (2 ^ 32) = 704
    norm_num
  · norm_num

/-- Claim C8 as amended: the header backend's timespec request equals
exactly `ms` milliseconds (`ms * 10^6` nanoseconds) for every non-negative
`ms`; the POSIX `.c` backend's microsecond request equals exactly
`ms * 1000` only while the 32-bit product does not wrap, i.e. for
`ms ≤ 4294967` — beyond that the product is reduced modulo `2^32` and the
request can be shorter than `ms` milliseconds. -/
theorem claim_C8_sleep_request_exact (ms : Nat) :
    (ms ≤ 4294967 → zthread_sleep_c_micros ms = ms * 1000) ∧
    timespecNanos (zthread_sleep_h_ts ms) = ms * 1000000 := by
  constructor
  · intro h
    unfold zthread_sleep_c_micros
    apply Nat.mod_eq_of_lt
    omega
  · show (ms / 1000) * 1000000000 + (ms % 1000) * 1000000 = ms * 1000000
    omega

/-- Witness for claim C8's amended statement at a concrete input:
sleeping 5 milliseconds requests exactly 5000 microseconds from the `.c`
backend and 5000000 nanoseconds from the header backend. -/
theorem claim_C8_sleep_request_exact_witness :
    zthread_sleep_c_micros 5 = 5 * 1000 ∧
    timespecNanos (zthread_sleep_h_ts 5) = 5 * 1000000 :=
  ⟨(claim_C8_sleep_request_exact 5).1 (by norm_num),
   (claim_C8_sleep_request_exact 5).2⟩

/-- Claim C7 counterexample: when the wrapped callable raises an uncaught
failure during its invocation, control never reaches `delete p` in
`proxy_thunk` — the proxy's trace contains zero envelope deallocations
(the claim requires one) and the failure escapes the thread entry,
terminating the process. -/
theorem claim_C7_counterexample :
    countEvent (zthread__proxy_entry true).1 Event.freeEnvelope = 0 ∧
    (zthread__proxy_entry true).2 = true := by
  exact ⟨rfl, rfl⟩

/-- Claim C7 as amended: if the callable fails during its single invocation
inside the proxy, the envelope deallocation is skipped and the failure is
fatal for the whole process (the uncaught failure escapes the fixed thread
entry — the fatal alternative the spec admits); only when the callable
returns normally is the envelope deallocated, and then exactly once. -/
theorem claim_C7_failing_callable_fatal (callFails : Bool) :
    (callFails = true →
      zthread__proxy_entry callFails = ([Event.invokeCallable], true)) ∧
    (callFails = false →
      countEvent (zthread__proxy_entry callFails).1 Event.freeEnvelope = 1 ∧
      (zthread__proxy_entry callFails).2 = false) := by
  cases callFails <;> simp [zthread__proxy_entry, proxy_thunk, countEvent]

/-- Witness for claim C7's amended statement at concrete inputs. -/
theorem claim_C7_failing_callable_fatal_witness :
    zthread__proxy_entry true = ([Event.invokeCallable], true) ∧
    countEvent (zthread__proxy_entry false).1 Event.freeEnvelope = 1 :=
  ⟨(claim_C7_failing_callable_fatal true).1 rfl,
   ((claim_C7_failing_callable_fatal false).2 rfl).1⟩

/-- Claim C3: for every `z_thread::thread` object state reachable by any
sequence of its operations (default construction, spawning construction,
move construction, move assignment, join, detach), the `joinable` flag is
`true` exactly when a native thread was successfully started for this
object and has not yet been joined, detached, or moved out of it (the ghost
`live` fact carried by `Reach`). -/
theorem claim_C3_joinable_invariant (s : TState) (h : Reach s) :
    s.obj.joinable = s.live := by
  induction h with
  | default_ctor => rfl
  | spawn_ok newId => rfl
  | spawn_fail g => rfl
  | move_ctor_dst s hs ih =>
      simpa [thread_move_ctor] using ih
  | move_ctor_src s hs ih =>
      simp [thread_move_ctor]
  | move_assign_dst d s r hd hs hr ihd ihs =>
      rw [thread_move_assign] at hr
      simp at hr
      rw [← hr.2]
      simpa using ihs
  | move_assign_src d s r hd hs hr ihd ihs =>
      rw [thread_move_assign] at hr
      simp at hr
      rw [← hr.2]
  | join_step s hs ih =>
      rcases hj : s.obj.joinable with _ | _ <;> simp [thread_join, hj]
  | detach_step s hs ih =>
      rcases hj : s.obj.joinable with _ | _ <;> simp [thread_detach, hj]

/-- Witness for claim C3 at a concrete reachable state: a freshly spawned
handle with native identifier 7 is joinable and owns a live thread. -/
theorem claim_C3_joinable_invariant_witness :
    ({ obj := { inner := 7, joinable := true }, live := true } : TState).obj.joinable
      = ({ obj := { inner := 7, joinable := true }, live := true } : TState).live :=
  claim_C3_joinable_invariant
    { obj := { inner := 7, joinable := true }, live := true } (Reach.spawn_ok 7)

/-- Claim C9: across one `lock_guard` lifetime guarding mutex `m`, with an
enclosing-scope body that does not itself lock or unlock `m`: construction
performs exactly one lock of `m` and destruction exactly one unlock of `m`
(the whole trace contains exactly one of each); `m` is held after
construction and throughout every prefix of the body (the entire lifetime);
after the destructor — which C++ runs on every exit path of the scope — `m`
is no longer held; and the unlock is the final event of the lifetime. -/
theorem claim_C9_lock_guard_scoped (m : Nat) (body : List MutexEvent)
    (h : ∀ e ∈ body, e ≠ MutexEvent.lock m ∧ e ≠ MutexEvent.unlock m) :
    countMutexEvent (lock_guard_scope m body) (MutexEvent.lock m) = 1 ∧
    countMutexEvent (lock_guard_scope m body) (MutexEvent.unlock m) = 1 ∧
    (∀ k, runHeld m false ((lock_guard_ctor m).2 ++ body.take k) = true) ∧
    runHeld m false (lock_guard_scope m body) = false ∧
    (lock_guard_scope m body).getLast? = some (MutexEvent.unlock m) := by
  have hbody_lock : countMutexEvent body (MutexEvent.lock m) = 0 :=
    countMutexEvent_eq_zero body (MutexEvent.lock m) (fun x hx => (h x hx).1)
  have hbody_unlock : countMutexEvent body (MutexEvent.unlock m) = 0 :=
    countMutexEvent_eq_zero body (MutexEvent.unlock m) (fun x hx => (h x hx).2)
  have hscope : lock_guard_scope m body
      = [MutexEvent.lock m] ++ body ++ [MutexEvent.unlock m] := rfl
  refine ⟨?_, ?_, ?_, ?_, ?_⟩
  · rw [hscope, countMutexEvent_append, countMutexEvent_append, hbody_lock]
    simp [countMutexEvent]
  · rw [hscope, countMutexEvent_append, countMutexEvent_append, hbody_unlock]
    simp [countMutexEvent]
  · intro k
    have hstep : runHeld m false (lock_guard_ctor m).2 = true := by
      simp [lock_guard_ctor, runHeld, stepHeld]
    rw [runHeld_append, hstep]
    exact runHeld_untouched m (body.take k)
      (fun e he => h e (List.mem_of_mem_take he)) true
  · have hstep : runHeld m false (lock_guard_ctor m).2 = true := by
      simp [lock_guard_ctor, runHeld, stepHeld]
    rw [hscope]
    rw [runHeld_append, runHeld_append]
    have h1 : runHeld m false [MutexEvent.lock m] = true := by
      simp [runHeld, stepHeld]
    rw [h1, runHeld_untouched m body h true]
    simp [runHeld, stepHeld]
  · rw [hscope, List.append_assoc, ← List.append_assoc]
    exact List.getLast?_concat _

/-- Witness for claim C9 at concrete inputs: guarding mutex 1 around a body
that locks and unlocks a different mutex 2 yields exactly one lock and one
unlock of mutex 1, with mutex 1 held throughout and released last. -/
theorem claim_C9_lock_guard_scoped_witness :
    countMutexEvent
      (lock_guard_scope 1 [MutexEvent.lock 2, MutexEvent.unlock 2])
      (MutexEvent.lock 1) = 1 ∧
    countMutexEvent
      (lock_guard_scope 1 [MutexEvent.lock 2, MutexEvent.unlock 2])
      (MutexEvent.unlock 1) = 1 ∧
    runHeld 1 false (lock_guard_scope 1 [MutexEvent.lock 2, MutexEvent.unlock 2])
      = false := by
  have hbody : ∀ e ∈ [MutexEvent.lock 2, MutexEvent.unlock 2],
      e ≠ MutexEvent.lock 1 ∧ e ≠ MutexEvent.unlock 1 := by decide
  have hmain := claim_C9_lock_guard_scoped 1 [MutexEvent.lock 2, MutexEvent.unlock 2] hbody
  exact ⟨hmain.1, hmain.2.1, hmain.2.2.2.1⟩

end ZThread
